import Mathlib

/-!
Shallow embedding of `src/components/MultiSelectAutocomplete.tsx`
(react-multiselect-autocomplete).

The component is a single React function component whose state consists of
eight `useState` hooks.  We embed that state as a structure and each event
handler as a pure state transformer, translated line by line from the
TypeScript source:

* `searchQuery : string`            → `String`
* `selectedCharacters : Character[]`→ `List Character`
* `searchResults : Character[]`     → `List Character`
* `isLoading, isError : boolean`    → `Bool`
* `highlightedIndex : number`       → `JsNum` (a JavaScript number used as an
  index; it can become `NaN` through `% 0`, which `JsNum.nan` represents)
* `focusedSelectedIndex : number | null` → `Option JsNum`
* `hoveredIndex : number | null`    → `Option JsNum`

JavaScript `%` is the truncating remainder (sign of the dividend), which is
`Int.tmod`; `x % 0` is `NaN`.  Reading `array[i]` out of bounds (negative `i`,
`i ≥ length`, or `i = NaN`) yields `undefined`; the only place the component
does that is `searchResults[highlightedIndex - 1]` in the `Enter` branch, and
the resulting `undefined` is immediately dereferenced (`character.id` inside
`selectCharacter` → `isCharacterSelected`), a TypeError.  Handlers that can
crash this way therefore return an `Option`; `none` models the thrown
TypeError.
-/

/-- The `Character` record built from the API payload
(`id`, `name`, `image`, `episode.length`). -/
structure Character where
  id : Int
  name : String
  image : String
  episodeCount : Int
deriving Repr, DecidableEq

/-- A JavaScript number used as an index: either an actual integer or `NaN`
(produced here only by the remainder operator with divisor 0). -/
inductive JsNum where
  | nan : JsNum
  | int (v : Int) : JsNum
deriving Repr, DecidableEq

namespace JsNum

/-- JavaScript `+` on numbers; `NaN` is absorbing. -/
def add : JsNum → JsNum → JsNum
  | int a, int b => int (a + b)
  | _, _ => nan

/-- JavaScript `-` on numbers; `NaN` is absorbing. -/
def sub : JsNum → JsNum → JsNum
  | int a, int b => int (a - b)
  | _, _ => nan

/-- JavaScript `%` on numbers: truncating remainder (`Int.tmod`, sign of the
dividend); any `NaN` operand or a zero divisor yields `NaN`. -/
def mod : JsNum → JsNum → JsNum
  | int a, int b => if b = 0 then nan else int (Int.tmod a b)
  | _, _ => nan

end JsNum

/-- JavaScript array indexing `l[i]`: `undefined` (here `none`) when the index
is `NaN`, negative, or not below the length. -/
def jsIndex (l : List Character) : JsNum → Option Character
  | JsNum.nan => none
  | JsNum.int i => if h : 0 ≤ i ∧ i < l.length then some (l.get ⟨i.toNat, by omega⟩) else none

/-- The eight `useState` hooks of `MultiSelectAutocomplete`. -/
structure ComponentState where
  searchQuery : String
  selectedCharacters : List Character
  searchResults : List Character
  isLoading : Bool
  isError : Bool
  highlightedIndex : JsNum
  focusedSelectedIndex : Option JsNum
  hoveredIndex : Option JsNum
deriving Repr, DecidableEq

/-- The initial state of the hooks:
`useState("")`, `useState([])`, `useState([])`, `useState(false)`,
`useState(false)`, `useState(0)`, `useState(null)`, `useState(null)`. -/
def initState : ComponentState :=
  { searchQuery := ""
    selectedCharacters := []
    searchResults := []
    isLoading := false
    isError := false
    highlightedIndex := JsNum.int 0
    focusedSelectedIndex := none
    hoveredIndex := none }

/-- `isCharacterSelected(id)`:
`selectedCharacters.some((character) => character.id === id)`. -/
def isCharacterSelected (st : ComponentState) (id : Int) : Bool :=
  st.selectedCharacters.any (fun character => character.id == id)

/-- `selectCharacter(character)`: if already selected, filter out the entries
with that id; otherwise append the character at the end. -/
def selectCharacter (st : ComponentState) (character : Character) : ComponentState :=
  if isCharacterSelected st character.id then
    { st with selectedCharacters :=
        st.selectedCharacters.filter (fun c => c.id != character.id) }
  else
    { st with selectedCharacters := st.selectedCharacters ++ [character] }

/-- `removeCharacter(characterId)`: filter the selection to exclude the id. -/
def removeCharacter (st : ComponentState) (characterId : Int) : ComponentState :=
  { st with selectedCharacters :=
      st.selectedCharacters.filter (fun character => character.id != characterId) }

/-- `updateSearchQuery(newQuery)`: `setSearchQuery(newQuery); setIsError(false)`. -/
def updateSearchQuery (st : ComponentState) (newQuery : String) : ComponentState :=
  { st with searchQuery := newQuery, isError := false }

/-- The `useEffect` body up to the `axios.get` call: when the (new) query is
non-empty it sets `isLoading := true` and issues the request; otherwise it
does nothing. -/
def lookupStart (st : ComponentState) : ComponentState :=
  if st.searchQuery.length > 0 then { st with isLoading := true } else st

/-- The `.then` handler of the lookup: the mapped characters replace
`searchResults` wholesale and `isLoading` is cleared. -/
def lookupSuccess (st : ComponentState) (characters : List Character) : ComponentState :=
  { st with searchResults := characters, isLoading := false }

/-- The `.catch` handler of the lookup:
`setIsError(true); setIsLoading(false)` (after logging). -/
def lookupFailure (st : ComponentState) : ComponentState :=
  { st with isError := true, isLoading := false }

/-- `handleMouseEnter(index)`: `setHoveredIndex(index)`. -/
def handleMouseEnter (st : ComponentState) (index : Nat) : ComponentState :=
  { st with hoveredIndex := some (JsNum.int index) }

/-- `handleMouseLeave()`: `setHoveredIndex(null)`. -/
def handleMouseLeave (st : ComponentState) : ComponentState :=
  { st with hoveredIndex := none }

/-- The `setHighlightedIndex` updater of the ArrowDown/ArrowUp branch. -/
def arrowHighlighted (down : Bool) (prevIndex : JsNum) (len : Nat) : JsNum :=
  if down then
    JsNum.mod (JsNum.add prevIndex (JsNum.int 1)) (JsNum.int len)
  else
    JsNum.mod (JsNum.add (JsNum.sub prevIndex (JsNum.int 1)) (JsNum.int len)) (JsNum.int len)

/-- The `setHoveredIndex` updater of the ArrowDown/ArrowUp branch: a `null`
previous value enters at `0` (down) or `searchResults.length - 1` (up). -/
def arrowHovered (down : Bool) (prevIndex : Option JsNum) (len : Nat) : Option JsNum :=
  if down then
    some (match prevIndex with
      | some p => JsNum.mod (JsNum.add p (JsNum.int 1)) (JsNum.int len)
      | none => JsNum.int 0)
  else
    some (match prevIndex with
      | some p => JsNum.mod (JsNum.add (JsNum.sub p (JsNum.int 1)) (JsNum.int len)) (JsNum.int len)
      | none => JsNum.int ((len : Int) - 1))

/-- `handleKeyDown(event)`, keyed on `event.key`.  The returned `Bool` records
whether `event.preventDefault()` was called.  `none` models the TypeError
thrown when `selectCharacter` dereferences the `undefined` produced by an
out-of-bounds `searchResults[highlightedIndex - 1]`.  The guard
`highlightedIndex !== null` of the Enter branch is always true because
`highlightedIndex` has TypeScript type `number`.  `!searchQuery` in the
Backspace/Delete branch tests for the empty string. -/
def handleKeyDown (st : ComponentState) (key : String) : Option (ComponentState × Bool) :=
  if key = "ArrowDown" ∨ key = "ArrowUp" then
    let down := key = "ArrowDown"
    some ({ st with
        highlightedIndex := arrowHighlighted down st.highlightedIndex st.searchResults.length
        hoveredIndex := arrowHovered down st.hoveredIndex st.searchResults.length }, false)
  else if key = "Enter" then
    if st.searchResults.length > 0 then
      match jsIndex st.searchResults (JsNum.sub st.highlightedIndex (JsNum.int 1)) with
      | some character => some (selectCharacter st character, true)
      | none => none
    else some (st, false)
  else if key = "Backspace" ∨ key = "Delete" then
    if st.searchQuery = "" ∧ st.selectedCharacters.length > 0 then
      some ({ st with selectedCharacters := st.selectedCharacters.dropLast }, false)
    else some (st, false)
  else
    some (st, false)

/-- The discrete events that can reach the component: typing in the input
(`onChange` → `updateSearchQuery`, immediately followed by the `useEffect` on
`searchQuery`), key presses, a lookup response resolving (success or failure —
with no cancellation a response may arrive in any later state), hovering a
result row, and the two click handlers. -/
inductive Event where
  | input (s : String) : Event
  | keyDown (key : String) : Event
  | lookupSuccess (characters : List Character) : Event
  | lookupFailure : Event
  | mouseEnter (index : Nat) : Event
  | mouseLeave : Event
  | clickResult (character : Character) : Event
  | clickTag (characterId : Int) : Event
deriving Repr, DecidableEq

/-- One event step; `none` propagates a handler crash. -/
def step (st : ComponentState) : Event → Option ComponentState
  | Event.input s => some (lookupStart (updateSearchQuery st s))
  | Event.keyDown key => (handleKeyDown st key).map Prod.fst
  | Event.lookupSuccess characters => some (lookupSuccess st characters)
  | Event.lookupFailure => some (lookupFailure st)
  | Event.mouseEnter index => some (handleMouseEnter st index)
  | Event.mouseLeave => some (handleMouseLeave st)
  | Event.clickResult character => some (selectCharacter st character)
  | Event.clickTag characterId => some (removeCharacter st characterId)

/-- Run a sequence of events from a state. -/
def run (st : ComponentState) : List Event → Option ComponentState
  | [] => some st
  | e :: es => (step st e).bind (fun st' => run st' es)

/-- Case-insensitive string-fragment comparison, as performed by the `i` flag
of the regex and by `toLowerCase()` in the bold test. -/
def lowerEq (a b : List Char) : Bool :=
  a.map Char.toLower == b.map Char.toLower

/-- Splitting on the empty query: `new RegExp("()", "gi")` matches emptily
between every two characters, so `split` returns the single-character pieces
with the (empty) capture spliced between them; on the empty string, `split`
with an emptily-matching pattern returns `[]`. -/
def splitEmptyQuery : List Char → List (List Char)
  | [] => []
  | [c] => [[c]]
  | c :: c' :: rest => [c] :: [] :: splitEmptyQuery (c' :: rest)

/-- Fuel-indexed left-to-right scan for case-insensitive occurrences of the
(non-empty) query, producing the pieces of `text.split(pattern)` with the
matched occurrence (taken from the original text, so with its original
casing) spliced between consecutive pieces, exactly as a capturing group
does.  The fuel only bounds the number of characters still to be consumed;
`fuel = t.length` always suffices, and the zero-fuel fallback is unreachable
from `splitOnQuery`. -/
def splitOnFuel (q : List Char) : Nat → List Char → List Char → List (List Char)
  | _, [], acc => [acc.reverse]
  | 0, t, acc => [acc.reverse ++ t]
  | fuel + 1, c :: rest, acc =>
    if lowerEq ((c :: rest).take q.length) q then
      acc.reverse :: (c :: rest).take q.length ::
        splitOnFuel q fuel ((c :: rest).drop q.length) []
    else
      splitOnFuel q fuel rest (c :: acc)

/-- JavaScript `text.split(new RegExp("(" + query + ")", "gi"))` with the
query read as a literal string.  The source interpolates the raw query into
the pattern without escaping, so this reading is exact precisely for queries
free of regex metacharacters; for a query containing metacharacters the
built regex either has a different meaning (for instance `$` anchors instead
of matching the dollar character) or fails to construct at all (for instance
`[`), which the specification flags as a latent defect of the source. -/
def splitOnQuery (text query : String) : List String :=
  if query = "" then (splitEmptyQuery text.toList).map List.asString
  else (splitOnFuel query.toList text.toList.length text.toList []).map List.asString

/-- `highlightText(text, query)`: each rendered span is a piece of the split
together with its style, bold exactly when
`part.toLowerCase() === query.toLowerCase()` (compared character-wise). -/
def highlightText (text query : String) : List (String × Bool) :=
  (splitOnQuery text query).map (fun part => (part, lowerEq part.toList query.toList))

/-- A sample character, as mapped from the API payload. -/
def rickC : Character :=
  { id := 1, name := "Rick Sanchez", image := "rick.png", episodeCount := 51 }

/-- A second sample character with a distinct id. -/
def mortyC : Character :=
  { id := 2, name := "Morty Smith", image := "morty.png", episodeCount := 51 }

/-- Sample state with one selected character. -/
def stSel : ComponentState := { initState with selectedCharacters := [rickC] }

/-- Sample state with two selected characters. -/
def stBsp : ComponentState := { initState with selectedCharacters := [rickC, mortyC] }

/-- Sample state with two results and an out-of-range highlighted index
(reachable because `highlightedIndex` is never range-checked when
`searchResults` is replaced by a response for a narrower query). -/
def stTwo : ComponentState :=
  { initState with searchResults := [rickC, mortyC], highlightedIndex := JsNum.int 2 }

/-- Sample state with one result and the highlighted index on it
(after one ArrowDown from a fresh two-result list, say). -/
def stEnter : ComponentState :=
  { initState with searchResults := [rickC], highlightedIndex := JsNum.int 1 }

/-- Sample state with one result and an in-range highlighted index. -/
def stNav : ComponentState := { initState with searchResults := [rickC] }

/-- C4: for every string `s` and every prior state, `updateSearchQuery s` sets
`queryText` (`searchQuery`) to `s` and `isError` to `false`, whatever the
prior error state, and touches nothing else. -/
theorem updateSearchQuery_sets_query_clears_error (st : ComponentState) (s : String) :
    (updateSearchQuery st s).searchQuery = s ∧
    (updateSearchQuery st s).isError = false ∧
    (updateSearchQuery st s).selectedCharacters = st.selectedCharacters ∧
    (updateSearchQuery st s).searchResults = st.searchResults ∧
    (updateSearchQuery st s).isLoading = st.isLoading ∧
    (updateSearchQuery st s).highlightedIndex = st.highlightedIndex ∧
    (updateSearchQuery st s).hoveredIndex = st.hoveredIndex :=
  ⟨rfl, rfl, rfl, rfl, rfl, rfl, rfl⟩

/-- C5: the lookup failure handler sets `isError := true` and
`isLoading := false` and leaves every other piece of state — in particular
`searchResults` — exactly as it was before the failed call. -/
theorem lookupFailure_sets_flags_keeps_rest (st : ComponentState) :
    (lookupFailure st).isError = true ∧
    (lookupFailure st).isLoading = false ∧
    (lookupFailure st).searchResults = st.searchResults ∧
    (lookupFailure st).searchQuery = st.searchQuery ∧
    (lookupFailure st).selectedCharacters = st.selectedCharacters ∧
    (lookupFailure st).highlightedIndex = st.highlightedIndex ∧
    (lookupFailure st).hoveredIndex = st.hoveredIndex :=
  ⟨rfl, rfl, rfl, rfl, rfl, rfl, rfl⟩

/-- C10: a key that is none of ArrowDown, ArrowUp, Enter, Backspace, Delete
(Tab included) leaves the whole state unchanged and does not call
`preventDefault`. -/
theorem handleKeyDown_frame_other_keys (st : ComponentState) (key : String)
    (h1 : key ≠ "ArrowDown") (h2 : key ≠ "ArrowUp") (h3 : key ≠ "Enter")
    (h4 : key ≠ "Backspace") (h5 : key ≠ "Delete") :
    handleKeyDown st key = some (st, false) := by
  unfold handleKeyDown
  rw [if_neg (by simp [h1, h2]), if_neg h3, if_neg (by simp [h4, h5])]

/-- Witness for C10 at the Tab key and the initial state. -/
theorem handleKeyDown_frame_other_keys_witness :
    handleKeyDown initState "Tab" = some (initState, false) :=
  handleKeyDown_frame_other_keys initState "Tab"
    (by decide) (by decide) (by decide) (by decide) (by decide)

/-- C2: with `searchResults` empty, ArrowDown does return (no exception), but
it does not leave the indices unchanged: `(0 + 1) % 0` is `NaN`, so
`highlightedIndex` becomes `NaN`, and the `null` `hoveredIndex` enters at 0. -/
theorem arrow_on_empty_results_changes_indices :
    initState.searchResults = [] ∧
    handleKeyDown initState "ArrowDown" =
      some ({ initState with highlightedIndex := JsNum.nan,
                             hoveredIndex := some (JsNum.int 0) }, false) ∧
    initState.highlightedIndex ≠ JsNum.nan ∧
    initState.hoveredIndex ≠ some (JsNum.int 0) := by
  decide

/-- C7 counterexample: with two results and the (reachable, never
range-checked) highlighted index 2, ArrowDown then ArrowUp lands on 0, not
back on 2. -/
theorem arrow_down_up_not_inverse_out_of_range :
    stTwo.searchResults ≠ [] ∧
    stTwo.highlightedIndex = JsNum.int 2 ∧
    ((handleKeyDown stTwo "ArrowDown").bind (fun p => handleKeyDown p.1 "ArrowUp")).map
      (fun p => p.1.highlightedIndex) = some (JsNum.int 0) ∧
    JsNum.int 0 ≠ JsNum.int 2 := by
  decide

/-- C3 counterexample: from the initial state, typing "rick" and receiving a
one-element response reaches a state with non-empty results and the initial
`highlightedIndex = 0`; Enter then reads `searchResults[-1]`, which is out of
bounds (`undefined`), and the handler throws inside `selectCharacter`. -/
theorem enter_out_of_bounds_at_reachable_state :
    (run initState [Event.input "rick", Event.lookupSuccess [rickC]]).map
        ComponentState.searchResults = some [rickC] ∧
    (run initState [Event.input "rick", Event.lookupSuccess [rickC]]).map
        ComponentState.highlightedIndex = some (JsNum.int 0) ∧
    (run initState [Event.input "rick", Event.lookupSuccess [rickC]]).bind
        (fun st => handleKeyDown st "Enter") = none := by
  decide

/-- C8: in the literal reading of the query (the specified intent), the
split-and-embolden rendering behaves as described: "Morty" against "or" gives
exactly the plain "M", bold "or", plain "ty"; an empty query leaves every
character of "Morty" in a plain span (the bold spans are all empty, i.e. zero
visible matches); and "a$b" against "$" emboldens exactly the "$" — the
behaviour the source's unescaped `RegExp` fails to produce there. -/
theorem highlightText_literal_scenarios :
    highlightText "Morty" "or" = [("M", false), ("or", true), ("ty", false)] ∧
    (highlightText "Morty" "").all (fun p => p.2 == false || p.1 == "") = true ∧
    String.join ((highlightText "Morty" "").map Prod.fst) = "Morty" ∧
    highlightText "a$b" "$" = [("a", false), ("$", true), ("b", false)] := by
  decide

/-- C6: on Backspace or Delete with empty `queryText` and a non-empty
selection, exactly the last-appended item is removed (LIFO) and the earlier
items are left untouched; with an empty selection the key press leaves the
selection (indeed the whole state) unchanged. -/
theorem backspace_removes_last_selected (st : ComponentState) :
    (∀ l x, st.searchQuery = "" → st.selectedCharacters = l ++ [x] →
      handleKeyDown st "Backspace" = some ({ st with selectedCharacters := l }, false) ∧
      handleKeyDown st "Delete" = some ({ st with selectedCharacters := l }, false)) ∧
    (st.selectedCharacters = [] →
      handleKeyDown st "Backspace" = some (st, false) ∧
      handleKeyDown st "Delete" = some (st, false)) := by
  constructor
  · intro l x hq hsel
    have hcond : st.searchQuery = "" ∧ st.selectedCharacters.length > 0 :=
      ⟨hq, by rw [hsel]; simp⟩
    have hdrop : st.selectedCharacters.dropLast = l := by
      rw [hsel]; exact List.dropLast_concat
    constructor
    · unfold handleKeyDown
      rw [if_neg (by decide), if_neg (by decide), if_pos (Or.inl rfl), if_pos hcond, hdrop]
    · unfold handleKeyDown
      rw [if_neg (by decide), if_neg (by decide), if_pos (Or.inr rfl), if_pos hcond, hdrop]
  · intro hsel
    have hcond : ¬ (st.searchQuery = "" ∧ st.selectedCharacters.length > 0) := by
      rw [hsel]; simp
    constructor
    · unfold handleKeyDown
      rw [if_neg (by decide), if_neg (by decide), if_pos (Or.inl rfl), if_neg hcond]
    · unfold handleKeyDown
      rw [if_neg (by decide), if_neg (by decide), if_pos (Or.inr rfl), if_neg hcond]

/-- Witness for C6: Backspace on a two-item selection drops exactly the
second (last-appended) item; Delete on an empty selection is a no-op. -/
theorem backspace_removes_last_selected_witness :
    handleKeyDown stBsp "Backspace" = some ({ stBsp with selectedCharacters := [rickC] }, false) ∧
    handleKeyDown initState "Delete" = some (initState, false) :=
  ⟨((backspace_removes_last_selected stBsp).1 [rickC] mortyC rfl rfl).1,
   ((backspace_removes_last_selected initState).2 rfl).2⟩

/-- With pairwise-distinct ids, filtering out one present id removes exactly
the unique entry carrying it, keeping every other entry in order. -/
theorem filter_remove_one (l : List Character) (i : Int)
    (hnd : (l.map Character.id).Nodup)
    (hmem : l.any (fun c => c.id == i) = true) :
    ∃ l1 c l2, l = l1 ++ c :: l2 ∧ c.id = i ∧
      l.filter (fun x => x.id != i) = l1 ++ l2 := by
  induction l with
  | nil => simp at hmem
  | cons a t ih =>
    simp only [List.map_cons, List.nodup_cons] at hnd
    by_cases ha : a.id = i
    · refine ⟨[], a, t, rfl, ha, ?_⟩
      have ht : ∀ x ∈ t, (x.id != i) = true := by
        intro x hx
        have hne : x.id ≠ a.id := by
          intro hcontra
          exact hnd.1 (hcontra ▸ List.mem_map.mpr ⟨x, hx, rfl⟩)
        simp [ha ▸ hne]
      simp only [List.filter_cons, List.nil_append]
      rw [if_neg (by simp [ha]), List.filter_eq_self.mpr ht]
    · have hmem' : t.any (fun c => c.id == i) = true := by
        simp only [List.any_cons] at hmem
        rcases Bool.or_eq_true_iff.mp hmem with h | h
        · exact absurd (by simpa using h) ha
        · exact h
      obtain ⟨l1, c, l2, heq, hc, hfil⟩ := ih hnd.2 hmem'
      refine ⟨a :: l1, c, l2, by rw [heq, List.cons_append], hc, ?_⟩
      simp only [List.filter_cons]
      rw [if_pos (by simp [ha]), hfil, List.cons_append]

/-- C1: `selectCharacter x` appends `x` at the end when no entry with `x`'s
id is present; when one is present (selections keep ids pairwise distinct),
it removes exactly that entry and preserves the order of all others. -/
theorem selectCharacter_toggle (st : ComponentState) (x : Character) :
    (isCharacterSelected st x.id = false →
      selectCharacter st x = { st with selectedCharacters := st.selectedCharacters ++ [x] }) ∧
    ((st.selectedCharacters.map Character.id).Nodup →
      isCharacterSelected st x.id = true →
      ∃ l1 c l2, st.selectedCharacters = l1 ++ c :: l2 ∧ c.id = x.id ∧
        (selectCharacter st x).selectedCharacters = l1 ++ l2) := by
  constructor
  · intro hnot
    unfold selectCharacter
    rw [hnot]
    rfl
  · intro hnd hsel
    obtain ⟨l1, c, l2, heq, hc, hfil⟩ := filter_remove_one st.selectedCharacters x.id hnd hsel
    refine ⟨l1, c, l2, heq, hc, ?_⟩
    unfold selectCharacter
    rw [hsel]
    simpa using hfil

/-- Witness for C1: selecting the unselected Morty appends him; selecting
the already-selected Rick removes exactly his entry. -/
theorem selectCharacter_toggle_witness :
    selectCharacter stSel mortyC =
      { stSel with selectedCharacters := stSel.selectedCharacters ++ [mortyC] } ∧
    (∃ l1 c l2, stSel.selectedCharacters = l1 ++ c :: l2 ∧ c.id = rickC.id ∧
        (selectCharacter stSel rickC).selectedCharacters = l1 ++ l2) :=
  ⟨(selectCharacter_toggle stSel mortyC).1 (by decide),
   (selectCharacter_toggle stSel rickC).2 (by decide) (by decide)⟩

/-- C9: uniqueness of selection ids is an invariant of every mutator of
`selectedCharacters`: the `selectCharacter` toggle, `removeCharacter`, and
the Backspace/Delete last-item removal all preserve pairwise-distinct ids. -/
theorem selection_ids_nodup_invariant (st : ComponentState) (x : Character) (cid : Int)
    (h : (st.selectedCharacters.map Character.id).Nodup) :
    ((selectCharacter st x).selectedCharacters.map Character.id).Nodup ∧
    ((removeCharacter st cid).selectedCharacters.map Character.id).Nodup ∧
    (handleKeyDown st "Backspace").elim True
      (fun p => (p.1.selectedCharacters.map Character.id).Nodup) ∧
    (handleKeyDown st "Delete").elim True
      (fun p => (p.1.selectedCharacters.map Character.id).Nodup) := by
  have hfilter : ∀ p : Character → Bool,
      ((st.selectedCharacters.filter p).map Character.id).Nodup := fun p =>
    h.sublist ((List.filter_sublist st.selectedCharacters).map Character.id)
  have hdrop : ((st.selectedCharacters.dropLast).map Character.id).Nodup :=
    h.sublist ((List.dropLast_sublist st.selectedCharacters).map Character.id)
  refine ⟨?_, hfilter _, ?_, ?_⟩
  · unfold selectCharacter
    by_cases hs : isCharacterSelected st x.id
    · rw [if_pos hs]
      exact hfilter _
    · rw [if_neg hs]
      simp only [List.map_append, List.map_cons, List.map_nil]
      refine List.Nodup.append h (by simp) ?_
      intro a ha hmem
      simp only [List.mem_singleton] at hmem
      subst hmem
      obtain ⟨cc, hcc, hcid⟩ := List.mem_map.mp ha
      have : st.selectedCharacters.any (fun character => character.id == x.id) = true :=
        List.any_eq_true.mpr ⟨cc, hcc, by simp [hcid]⟩
      exact hs this
  · unfold handleKeyDown
    rw [if_neg (by decide), if_neg (by decide), if_pos (Or.inl rfl)]
    by_cases hc : st.searchQuery = "" ∧ st.selectedCharacters.length > 0
    · rw [if_pos hc]; exact hdrop
    · rw [if_neg hc]; exact h
  · unfold handleKeyDown
    rw [if_neg (by decide), if_neg (by decide), if_pos (Or.inr rfl)]
    by_cases hc : st.searchQuery = "" ∧ st.selectedCharacters.length > 0
    · rw [if_pos hc]; exact hdrop
    · rw [if_neg hc]; exact h

/-- Witness for C9 at a concrete one-item selection. -/
theorem selection_ids_nodup_invariant_witness :
    ((selectCharacter stSel mortyC).selectedCharacters.map Character.id).Nodup ∧
    ((removeCharacter stSel 1).selectedCharacters.map Character.id).Nodup ∧
    (handleKeyDown stSel "Backspace").elim True
      (fun p => (p.1.selectedCharacters.map Character.id).Nodup) ∧
    (handleKeyDown stSel "Delete").elim True
      (fun p => (p.1.selectedCharacters.map Character.id).Nodup) :=
  selection_ids_nodup_invariant stSel mortyC 1 (by decide)

/-- Round-trip of the two index updaters: for an index already in
`[0, len)`, one step down followed by one step up (and vice versa) is the
identity; JavaScript `%` coincides with mathematical modulo here because
every intermediate dividend is non-negative. -/
theorem arrowHighlighted_round_trip (i : Int) (len : Nat)
    (h2 : 0 ≤ i) (h3 : i < (len : Int)) :
    arrowHighlighted false (arrowHighlighted true (JsNum.int i) len) len = JsNum.int i ∧
    arrowHighlighted true (arrowHighlighted false (JsNum.int i) len) len = JsNum.int i := by
  have hlen : (len : Int) ≠ 0 := by omega
  constructor
  · have e1 : arrowHighlighted true (JsNum.int i) len = JsNum.int ((i + 1) % len) := by
      simp only [arrowHighlighted, eq_self_iff_true, if_true, JsNum.add, JsNum.mod, if_neg hlen]
      rw [Int.tmod_eq_emod (by omega) (by omega)]
    rw [e1]
    have hj0 : 0 ≤ (i + 1) % len := Int.emod_nonneg _ hlen
    simp only [arrowHighlighted, JsNum.sub, JsNum.add, JsNum.mod, if_neg hlen, Bool.false_eq_true,
      if_false]
    rw [Int.tmod_eq_emod (by omega) (by omega)]
    congr 1
    calc ((i + 1) % len - 1 + len) % len
        = ((i + 1) % len + (len - 1)) % len := by
          rw [show (i + 1) % len - 1 + (len : Int) = (i + 1) % len + (len - 1) from by ring]
      _ = ((i + 1) + (len - 1)) % len := Int.emod_add_emod (i + 1) len (len - 1)
      _ = (i + len * 1) % len := by rw [show i + 1 + ((len : Int) - 1) = i + len * 1 from by ring]
      _ = i % len := Int.add_mul_emod_self_left i len 1
      _ = i := Int.emod_eq_of_lt h2 h3
  · have e1 : arrowHighlighted false (JsNum.int i) len = JsNum.int ((i - 1 + len) % len) := by
      simp only [arrowHighlighted, JsNum.sub, JsNum.add, JsNum.mod, if_neg hlen,
        Bool.false_eq_true, if_false]
      rw [Int.tmod_eq_emod (by omega) (by omega)]
    rw [e1]
    have hj0 : 0 ≤ (i - 1 + len) % len := Int.emod_nonneg _ hlen
    simp only [arrowHighlighted, eq_self_iff_true, if_true, JsNum.add, JsNum.mod, if_neg hlen]
    rw [Int.tmod_eq_emod (by omega) (by omega)]
    congr 1
    calc ((i - 1 + len) % len + 1) % len
        = ((i - 1 + len) + 1) % len := Int.emod_add_emod (i - 1 + len) len 1
      _ = (i + len * 1) % len := by rw [show i - 1 + (len : Int) + 1 = i + len * 1 from by ring]
      _ = i % len := Int.add_mul_emod_self_left i len 1
      _ = i := Int.emod_eq_of_lt h2 h3

/-- C7 (amended): with non-empty results and an in-range integer
`highlightedIndex` — `0 ≤ i < results.length` — ArrowDown then ArrowUp (and
ArrowUp then ArrowDown) restores `highlightedIndex` to its original value;
out of range the round trip can land elsewhere (see the counterexample). -/
theorem arrow_down_up_restores_highlighted (st : ComponentState) (i : Int)
    (h1 : st.highlightedIndex = JsNum.int i) (h2 : 0 ≤ i)
    (h3 : i < (st.searchResults.length : Int)) :
    ((handleKeyDown st "ArrowDown").bind (fun p => handleKeyDown p.1 "ArrowUp")).map
        (fun p => p.1.highlightedIndex) = some (JsNum.int i) ∧
    ((handleKeyDown st "ArrowUp").bind (fun p => handleKeyDown p.1 "ArrowDown")).map
        (fun p => p.1.highlightedIndex) = some (JsNum.int i) := by
  have hD : ∀ s : ComponentState, handleKeyDown s "ArrowDown" =
      some ({ s with
          highlightedIndex := arrowHighlighted true s.highlightedIndex s.searchResults.length
          hoveredIndex := arrowHovered true s.hoveredIndex s.searchResults.length }, false) :=
    fun s => rfl
  have hU : ∀ s : ComponentState, handleKeyDown s "ArrowUp" =
      some ({ s with
          highlightedIndex := arrowHighlighted false s.highlightedIndex s.searchResults.length
          hoveredIndex := arrowHovered false s.hoveredIndex s.searchResults.length }, false) :=
    fun s => rfl
  constructor
  · rw [hD st, Option.some_bind, hU, Option.map_some']
    simp only [h1]
    exact congrArg some (arrowHighlighted_round_trip i st.searchResults.length h2 h3).1
  · rw [hU st, Option.some_bind, hD, Option.map_some']
    simp only [h1]
    exact congrArg some (arrowHighlighted_round_trip i st.searchResults.length h2 h3).2

/-- Witness for C7 (amended) at one result and highlighted index 0. -/
theorem arrow_down_up_restores_highlighted_witness :
    ((handleKeyDown stNav "ArrowDown").bind (fun p => handleKeyDown p.1 "ArrowUp")).map
        (fun p => p.1.highlightedIndex) = some (JsNum.int 0) ∧
    ((handleKeyDown stNav "ArrowUp").bind (fun p => handleKeyDown p.1 "ArrowDown")).map
        (fun p => p.1.highlightedIndex) = some (JsNum.int 0) :=
  arrow_down_up_restores_highlighted stNav 0 rfl (by decide) (by decide)

/-- C3 (amended): with non-empty results and an integer `highlightedIndex`
`i` satisfying `1 ≤ i ≤ results.length`, Enter toggles the selection of
`results[i - 1]` and calls `preventDefault`; for the (reachable) value
`i = 0` the access `results[-1]` is out of bounds and the handler throws
(see the counterexample). -/
theorem enter_toggles_at_highlighted_pred (st : ComponentState) (i : Int)
    (h1 : st.highlightedIndex = JsNum.int i) (h2 : 1 ≤ i)
    (h3 : i ≤ (st.searchResults.length : Int)) :
    ∃ c, st.searchResults[(i - 1).toNat]? = some c ∧
      handleKeyDown st "Enter" = some (selectCharacter st c, true) := by
  have hn : (i - 1).toNat < st.searchResults.length := by omega
  refine ⟨st.searchResults.get ⟨(i - 1).toNat, hn⟩, ?_, ?_⟩
  · rw [List.getElem?_eq_getElem hn]
    simp
  · unfold handleKeyDown
    rw [if_neg (by decide), if_pos rfl, if_pos (by omega : st.searchResults.length > 0)]
    have hidx : jsIndex st.searchResults (JsNum.sub st.highlightedIndex (JsNum.int 1)) =
        some (st.searchResults.get ⟨(i - 1).toNat, hn⟩) := by
      rw [h1]
      show jsIndex st.searchResults (JsNum.int (i - 1)) = _
      simp only [jsIndex]
      rw [dif_pos ⟨by omega, by omega⟩]
    rw [hidx]

/-- Witness for C3 (amended) at one result and highlighted index 1. -/
theorem enter_toggles_at_highlighted_pred_witness :
    ∃ c, stEnter.searchResults[((1 : Int) - 1).toNat]? = some c ∧
      handleKeyDown stEnter "Enter" = some (selectCharacter stEnter c, true) :=
  enter_toggles_at_highlighted_pred stEnter 1 rfl (by decide) (by decide)
